import Mathlib

/-!
Shallow embedding of the subscription/broadcast core of django-realtime-api
(src/realtime_api/consumers.py, utils.py, signals.py), together with proofs
of the specified properties.

The embedding models the per-connection, per-stream endpoint
(`SelfContainedAPIConsumer`), the change-notification hook
(`ModelBindingMixin.post_change_receiver`), the connection-level
demultiplexer (`APIDemultiplexer`) and the identity-group bookkeeping
(`GroupUserConsumer`, `utils.get_group_user_key`,
`signals.close_sockets_after_login`).

Side effects (direct responses, bus joins/leaves, broadcasts) are made
explicit as values; database state is an explicit list of entities;
failures are values of an error type mirroring the DRF exception classes
the source raises.
-/

namespace RealtimeApi

/-- JSON-like values exchanged on the wire. -/
inductive JVal where
  | s (v : String)
  | n (v : Int)
  | obj (members : List (String × JVal))
  | null

mutual

/-- Structural boolean equality on JSON values. -/
def JVal.beq : JVal → JVal → Bool
  | .s a, .s b => a == b
  | .n a, .n b => a == b
  | .null, .null => true
  | .obj a, .obj b => JVal.beqMembers a b
  | _, _ => false

/-- Structural boolean equality on JSON object member lists. -/
def JVal.beqMembers : List (String × JVal) → List (String × JVal) → Bool
  | [], [] => true
  | a :: r1, b :: r2 => a.1 == b.1 && JVal.beq a.2 b.2 && JVal.beqMembers r1 r2
  | _, _ => false

end

mutual

/-- Correctness of the boolean equality on JSON values. -/
theorem JVal.beq_iff : ∀ a b : JVal, JVal.beq a b = true ↔ a = b
  | .s _, .s _ => by simp [JVal.beq]
  | .s _, .n _ => by simp [JVal.beq]
  | .s _, .obj _ => by simp [JVal.beq]
  | .s _, .null => by simp [JVal.beq]
  | .n _, .s _ => by simp [JVal.beq]
  | .n _, .n _ => by simp [JVal.beq]
  | .n _, .obj _ => by simp [JVal.beq]
  | .n _, .null => by simp [JVal.beq]
  | .obj a, .s _ => by simp [JVal.beq]
  | .obj a, .n _ => by simp [JVal.beq]
  | .obj a, .obj b => by
      simp only [JVal.beq, JVal.beqMembers_iff a b]
      constructor
      · intro h; rw [h]
      · intro h; cases h; rfl
  | .obj a, .null => by simp [JVal.beq]
  | .null, .s _ => by simp [JVal.beq]
  | .null, .n _ => by simp [JVal.beq]
  | .null, .obj _ => by simp [JVal.beq]
  | .null, .null => by simp [JVal.beq]

/-- Correctness of the boolean equality on JSON object member lists. -/
theorem JVal.beqMembers_iff : ∀ a b : List (String × JVal),
    JVal.beqMembers a b = true ↔ a = b
  | [], [] => by simp [JVal.beqMembers]
  | [], _ :: _ => by simp [JVal.beqMembers]
  | _ :: _, [] => by simp [JVal.beqMembers]
  | a :: r1, b :: r2 => by
      simp only [JVal.beqMembers, Bool.and_eq_true, beq_iff_eq,
        JVal.beq_iff a.2 b.2, JVal.beqMembers_iff r1 r2]
      constructor
      · rintro ⟨⟨h1, h2⟩, h3⟩
        cases a; cases b; simp_all
      · rintro h; cases h; simp

end

instance : DecidableEq JVal := fun a b =>
  decidable_of_iff (JVal.beq a b = true) (JVal.beq_iff a b)

/-- A persisted record: primary key (`none` models Python `None`, the state
after Django detaches a deleted instance), named fields, and the optional
`signal_broadcast` attribute. `none` models the attribute being absent, so
that `getattr(instance, 'signal_broadcast', True)` defaults to true. -/
structure Entity where
  pk : Option Nat
  fields : List (String × String)
  signal_broadcast : Option Bool := none
deriving DecidableEq, Repr

/-- Effects issued by the endpoint: a direct response to the requesting
connection (`send`), bus membership calls (`group_add`, `group_discard`)
and a broadcast publish (`group_send`, carrying the {action, data} frame). -/
inductive Effect where
  | send (status : Nat) (text : JVal)
  | group_add (group : String)
  | group_discard (group : String)
  | group_send (group : String) (action : String) (data : JVal)
deriving DecidableEq

/-- The DRF exception classes raised by the source code. -/
inductive ApiError where
  | notFound (detail : String)
  | validationError (detail : String)
  | permissionDenied
  | methodNotAllowed (action : String)
deriving DecidableEq, Repr

/-- Status codes the DRF exception handler assigns to the raised classes
(rest_framework.exceptions: NotFound 404, ValidationError 400,
PermissionDenied 403, MethodNotAllowed 405). -/
def ApiError.status : ApiError → Nat
  | .notFound _ => 404
  | .validationError _ => 400
  | .permissionDenied => 403
  | .methodNotAllowed _ => 405

/-- Response body the DRF exception handler renders for each class (the
NotFound raised without arguments carries DRF's default detail). -/
def ApiError.body : ApiError → JVal
  | .notFound d => .obj [("detail", .s d)]
  | .validationError d => .obj [("detail", .s d)]
  | .permissionDenied =>
      .obj [("detail", .s "You do not have permission to perform this action.")]
  | .methodNotAllowed a =>
      .obj [("detail", .s ("Action " ++ a ++ " not allowed."))]

/-- SelfContainedAPIConsumer.handle_exception: maps the raised exception
through the view's exception handler and sends the (status, body) pair to
the requesting connection only. -/
def handle_exception (e : ApiError) : Effect := .send e.status e.body

def SUBSCRIBE : String := "subscribe"
def UNSUBSCRIBE : String := "unsubscribe"
def CREATE : String := "create"
def UPDATE : String := "update"
def DELETE : String := "delete"

/-- Static endpoint configuration: the stream name, the declared serializer
field names (`self.field_names`), the criteria-name remapping
(`subscription_field_mapping`), and the entity kind's schema knowledge the
store applies when filtering: `int_fields` lists the criteria names whose
values are coerced to integers (an uncoercible value raises ValueError in
the store). -/
structure Config where
  stream : String
  field_names : List String
  subscription_field_mapping : List (String × String)
  int_fields : List String
deriving DecidableEq, Repr

/-- External collaborators as the spec scopes them: the policy check
(view permissions, evaluated with the optional target object) and the
serializer codec (validating a payload into field updates relative to an
optional instance, and rendering an instance to JSON). -/
structure View where
  perm : Option Entity → Bool
  validate : Option Entity → List (String × String) → Option (List (String × String))
  serialize : Entity → JVal

/-- Coercion of a text value to an integer, modelling the int() coercion
Django applies to values of integer-typed fields (failure raises
ValueError). -/
def parseNat (s : String) : Option Nat :=
  if !s.data.isEmpty && s.data.all Char.isDigit then
    some (s.data.foldl (fun acc c => 10 * acc + (c.toNat - 48)) 0)
  else none

/-- Association-list lookup, modelling Python dict `.get`. -/
def alistGet (m : List (String × String)) (k : String) : Option String :=
  (m.find? (fun kv => kv.1 == k)).map (fun kv => kv.2)

/-- Value an entity exposes for a criteria name; `pk`/`id` address the
primary key, as Django's queryset lookups do. -/
def Entity.fieldValue (e : Entity) (k : String) : Option String :=
  if k == "pk" || k == "id" then e.pk.map toString else alistGet e.fields k

/-- Conjunction of all criteria, modelling `queryset.filter(**filter_dict)`. -/
def matchesCriteria (e : Entity) (crit : List (String × String)) : Bool :=
  crit.all (fun kv => e.fieldValue kv.1 == some kv.2)

/-- The filter-criteria dict comprehension in get_objects: keep a payload
entry only if its name is a declared field name or a remapping key, and
remap the kept names through `subscription_field_mapping.get(k, k)`. -/
def filter_dict (cfg : Config) (data : List (String × String)) :
    List (String × String) :=
  (data.filter (fun kv =>
      cfg.field_names.contains kv.1
        || (alistGet cfg.subscription_field_mapping kv.1).isSome)).map
    (fun kv => ((alistGet cfg.subscription_field_mapping kv.1).getD kv.1, kv.2))

/-- The store's `queryset.filter(**crit)`: each criteria value is coerced
to its field's type before filtering; a value that cannot be coerced for an
integer-typed field raises ValueError, modelled as none. -/
def queryset_filter (cfg : Config) (db : List Entity)
    (crit : List (String × String)) : Option (List Entity) :=
  if crit.all (fun kv =>
      !cfg.int_fields.contains kv.1 || (parseNat kv.2).isSome) then
    some (db.filter (fun e => matchesCriteria e crit))
  else none

/-- SelfContainedAPIConsumer.get_objects: build the restricted, remapped
criteria map; an empty map returns `queryset.none()`, otherwise
`queryset.filter(**filter_dict)` is attempted and its ValueError is
re-raised as ValidationError('The lookup value is invalid.'). -/
def get_objects (cfg : Config) (db : List Entity)
    (payload : List (String × String)) : Except ApiError (List Entity) :=
  let fd := filter_dict cfg payload
  if fd.isEmpty then .ok []
  else
    match queryset_filter cfg db fd with
    | some objects => .ok objects
    | none => .error (.validationError "The lookup value is invalid.")

/-- SelfContainedAPIConsumer.get_object: the create action has no target
object; otherwise the lookup value is `url[2]` — a missing index raises
NotFound('The URL should include a lookup value.'), a value that cannot be
coerced raises ValidationError('The URL lookup value is invalid.'), and a
missing row raises NotFound() with the default detail. -/
def get_object (db : List Entity) (url : List String) (action : String) :
    Except ApiError (Option Entity) :=
  if action == CREATE then .ok none
  else
    match url.get? 2 with
    | none => .error (.notFound "The URL should include a lookup value.")
    | some lv =>
      match parseNat lv with
      | none => .error (.validationError "The URL lookup value is invalid.")
      | some v =>
        match db.find? (fun e => e.pk == some v) with
        | none => .error (.notFound "Not found.")
        | some e => .ok (some e)

/-- Rendering of a pk into the group-name format string ('None' for a
detached instance, as Python str(None) would give). -/
def pkRepr : Option Nat → String
  | some v => toString v
  | none => "None"

/-- SelfContainedAPIConsumer.get_group_name: '<stream>-<pk>'. -/
def get_group_name (cfg : Config) (obj : Entity) : String :=
  cfg.stream ++ "-" ++ pkRepr obj.pk

/-- SelfContainedAPIConsumer.get_group_names: the set of group names of all
requested objects (a Python set comprehension). -/
def get_group_names (cfg : Config) (objects : List Entity) : Finset String :=
  (objects.map (get_group_name cfg)).toFinset

/-- Result of the subscribe action: the new tracked `groups` set, the set of
groups passed to `channel_layer.group_add` (one call per element), and the
direct response. -/
structure SubscribeResult where
  groups : Finset String
  join_calls : Finset String
  response : Effect
deriving DecidableEq

/-- SelfContainedAPIConsumer.subscribe: resolve the requested objects, run
the policy check for each, compute the target groups, issue group_add only
for `groups - self.groups`, merge into the tracked set
(`self.groups.update`) and respond 200 'subscription successful'. -/
def subscribe (cfg : Config) (view : View) (db : List Entity)
    (payload : List (String × String)) (groups : Finset String) :
    Except ApiError SubscribeResult :=
  match get_objects cfg db payload with
  | .error e => .error e
  | .ok objects =>
    if objects.all (fun o => view.perm (some o)) then
      .ok { groups := groups ∪ get_group_names cfg objects
            join_calls := get_group_names cfg objects \ groups
            response := .send 200
              (.obj [("detail", .s "subscription successful")]) }
    else .error .permissionDenied

/-- Result of the unsubscribe action: the new tracked `groups` set, the set
of groups passed to `channel_layer.group_discard` (one call per element,
issued whether the group is currently held or not), and the response. -/
structure UnsubscribeResult where
  groups : Finset String
  discard_calls : Finset String
  response : Effect
deriving DecidableEq

/-- SelfContainedAPIConsumer.unsubscribe: resolve the requested objects
(a resolution error, such as the ValidationError for an uncoercible
criteria value, propagates), compute the target groups, issue group_discard
for every one of them, remove them from the tracked set
(`self.groups.difference_update`) and respond 204 'subscription
cancelled'. No permission check is run. -/
def unsubscribe (cfg : Config) (db : List Entity)
    (payload : List (String × String)) (groups : Finset String) :
    Except ApiError UnsubscribeResult :=
  match get_objects cfg db payload with
  | .error e => .error e
  | .ok objects =>
    .ok { groups := groups \ get_group_names cfg objects
          discard_calls := get_group_names cfg objects
          response := .send 204
            (.obj [("detail", .s "subscription cancelled")]) }

/-- The receive/handle_exception wrapper around unsubscribe: a raised error
becomes a single direct response to the requesting connection, with no
group_discard issued and the tracked set unchanged. -/
def receive_unsubscribe (cfg : Config) (db : List Entity)
    (payload : List (String × String)) (groups : Finset String) :
    UnsubscribeResult :=
  match unsubscribe cfg db payload groups with
  | .ok r => r
  | .error e =>
    { groups := groups, discard_calls := ∅, response := handle_exception e }

/-- JSON rendering of a pk (`null` for a detached instance). -/
def jsonPk : Option Nat → JVal
  | some v => .n (Int.ofNat v)
  | none => .null

/-- SelfContainedAPIConsumer.group_send_post_create: broadcast the
serialized created instance to its group as a {action, data} frame. -/
def group_send_post_create (cfg : Config) (view : View) (inst : Entity) :
    Effect :=
  .group_send (get_group_name cfg inst) CREATE (view.serialize inst)

/-- SelfContainedAPIConsumer.group_send_post_update: broadcast the
serialized updated instance to its group. -/
def group_send_post_update (cfg : Config) (view : View) (inst : Entity) :
    Effect :=
  .group_send (get_group_name cfg inst) UPDATE (view.serialize inst)

/-- SelfContainedAPIConsumer.group_send_post_delete: broadcast exactly
{'id': instance.pk} to the instance's group. -/
def group_send_post_delete (cfg : Config) (inst : Entity) : Effect :=
  .group_send (get_group_name cfg inst) DELETE
    (.obj [("id", jsonPk inst.pk)])

/-- ModelBindingMixin.post_change_receiver: invoked by the storage layer's
post_save/post_delete hooks after every committed mutation. When
`getattr(instance, 'signal_broadcast', True)` is false the hook is a no-op;
otherwise a transient consumer is synthesized and the matching
group_send_post_<action> broadcast is issued. -/
def post_change_receiver (cfg : Config) (view : View) (inst : Entity)
    (action : String) : List Effect :=
  if inst.signal_broadcast.getD true then
    if action == CREATE then [group_send_post_create cfg view inst]
    else if action == UPDATE then [group_send_post_update cfg view inst]
    else if action == DELETE then [group_send_post_delete cfg inst]
    else []
  else []

/-- Applying validated field updates to an instance. The serializer's save
on an existing row keeps the pk and the in-memory attributes (in particular
`signal_broadcast`) of the instance it was given. -/
def applyFields (e : Entity) (upd : List (String × String)) : Entity :=
  { e with fields := upd ++ e.fields.filter (fun kv => (alistGet upd kv.1).isNone) }

/-- SelfContainedAPIConsumer.deserialize: parse the payload, check
permissions against the optional target object, then validate
(`serializer.is_valid(raise_exception=True)`). Under immediate broadcast
the serializer class produced by get_serializer_class uses the dynamically
created proxy model carrying the class attribute `signal_broadcast = False`,
so a fresh instance it constructs carries the suppression flag. -/
def deserialize (view : View) (immediate_broadcast : Bool)
    (obj : Option Entity) (payload : List (String × String)) :
    Except ApiError Entity :=
  if view.perm obj then
    match view.validate obj payload with
    | none => .error (.validationError "invalid payload")
    | some upd =>
      let base := obj.getD
        { pk := none, fields := [],
          signal_broadcast := if immediate_broadcast then some false else none }
      .ok (applyFields base upd)
  else .error .permissionDenied

/-- Next primary key the storage layer assigns on create. -/
def freshPk (db : List Entity) : Nat :=
  (db.foldr (fun e acc => max acc (e.pk.getD 0)) 0) + 1

/-- The storage layer committing a create (`serializer.save()` inside
perform_create): the new row receives a fresh pk and the post_save hook
fires with the saved instance. -/
def storageCreate (cfg : Config) (view : View) (db : List Entity)
    (inst : Entity) : List Entity × Entity × List Effect :=
  let saved := { inst with pk := some (freshPk db) }
  (db ++ [saved], saved, post_change_receiver cfg view saved CREATE)

/-- The storage layer committing an update: the matching row is replaced and
the post_save hook fires with the saved instance. -/
def storageUpdate (cfg : Config) (view : View) (db : List Entity)
    (inst : Entity) : List Entity × Entity × List Effect :=
  (db.map (fun e => if e.pk == inst.pk then inst else e), inst,
   post_change_receiver cfg view inst UPDATE)

/-- The storage layer committing a delete (Django Model.delete): the row is
removed, the post_delete hook fires with the instance (pk still set at that
point), and the returned in-memory instance is detached (pk set to None). -/
def storageDelete (cfg : Config) (view : View) (db : List Entity)
    (inst : Entity) : List Entity × Entity × List Effect :=
  (db.filter (fun e => e.pk != inst.pk), { inst with pk := none },
   post_change_receiver cfg view inst DELETE)

/-- Result of a mutation action: the database after the commit and the
effects issued, in order (hook effects fired during the commit, then the
direct response, then the immediate broadcast). -/
structure MutationResult where
  db : List Entity
  effects : List Effect
deriving DecidableEq

/-- SelfContainedAPIConsumer.create: deserialize (permissions, then
validation), perform_create (the storage commit fires the change hook),
respond 201 'creation successful', then broadcast the created instance. -/
def create (cfg : Config) (view : View) (db : List Entity)
    (payload : List (String × String)) : Except ApiError MutationResult :=
  match deserialize view true none payload with
  | .error e => .error e
  | .ok inst =>
    let r := storageCreate cfg view db inst
    .ok { db := r.1
          effects := r.2.2
            ++ [.send 201 (.obj [("detail", .s "creation successful")]),
                group_send_post_create cfg view r.2.1] }

/-- SelfContainedAPIConsumer.update: resolve the target object, set
`obj.signal_broadcast = False` before mutating, deserialize the payload as
a partial update, perform_update (the commit fires the change hook),
respond 200 'update successful', then broadcast the updated instance. The
`none` case of get_object is unreachable here (it only arises for the
create action, which never calls update). -/
def update (cfg : Config) (view : View) (db : List Entity)
    (url : List String) (payload : List (String × String)) :
    Except ApiError MutationResult :=
  match get_object db url UPDATE with
  | .error e => .error e
  | .ok none => .error (.notFound "")
  | .ok (some obj0) =>
    match deserialize view true
        (some { obj0 with signal_broadcast := some false }) payload with
    | .error e => .error e
    | .ok inst =>
      .ok { db := (storageUpdate cfg view db inst).1
            effects := (storageUpdate cfg view db inst).2.2
              ++ [.send 200 (.obj [("detail", .s "update successful")]),
                  group_send_post_update cfg view
                    (storageUpdate cfg view db inst).2.1] }

/-- SelfContainedAPIConsumer.delete: resolve the target object, capture its
pk, set the suppression flag, perform_destroy (the commit fires the change
hook and detaches the instance), restore the pk onto the detached instance,
respond 204 'deletion successful', then broadcast {'id': pk}. -/
def delete (cfg : Config) (view : View) (db : List Entity)
    (url : List String) : Except ApiError MutationResult :=
  match get_object db url DELETE with
  | .error e => .error e
  | .ok none => .error (.notFound "")
  | .ok (some obj0) =>
    .ok { db :=
            (storageDelete cfg view db
              { obj0 with signal_broadcast := some false }).1
          effects :=
            (storageDelete cfg view db
              { obj0 with signal_broadcast := some false }).2.2
            ++ [.send 204 (.obj [("detail", .s "deletion successful")]),
                group_send_post_delete cfg
                  { (storageDelete cfg view db
                      { obj0 with signal_broadcast := some false }).2.1
                    with pk := obj0.pk }] }

/-- The receive/handle_exception wrapper around a mutation action: a raised
error becomes a single direct response to the requesting connection and the
database is left unchanged. -/
def receive_mutation (db : List Entity) (r : Except ApiError MutationResult) :
    MutationResult :=
  match r with
  | .ok res => res
  | .error e => { db := db, effects := [handle_exception e] }

def receive_create (cfg : Config) (view : View) (db : List Entity)
    (payload : List (String × String)) : MutationResult :=
  receive_mutation db (create cfg view db payload)

def receive_update (cfg : Config) (view : View) (db : List Entity)
    (url : List String) (payload : List (String × String)) : MutationResult :=
  receive_mutation db (update cfg view db url payload)

def receive_delete (cfg : Config) (view : View) (db : List Entity)
    (url : List String) : MutationResult :=
  receive_mutation db (delete cfg view db url)

/-- Broadcast publishes among a list of effects. -/
def isBroadcast : Effect → Bool
  | .group_send _ _ _ => true
  | _ => false

def broadcastCount (effs : List Effect) : Nat :=
  (effs.filter isBroadcast).length

/-- Direct responses among a list of effects. -/
def isDirectSend : Effect → Bool
  | .send _ _ => true
  | _ => false

def directSendCount (effs : List Effect) : Nat :=
  (effs.filter isDirectSend).length

/-- Outcome of APIDemultiplexer.receive: either a direct reply sent by the
demultiplexer itself, or the message handed to the registered endpoint's
receive for the named stream. -/
inductive DemuxOutcome where
  | direct (reply : JVal)
  | routed (stream : String)
deriving DecidableEq

/-- APIDemultiplexer.receive: look up `url[0]` in the registry of streams;
an unregistered stream is answered directly with
json.dumps({'status': 404, 'detail': 'Not found'}) and is not routed to any
endpoint; a registered stream's message is handed to that endpoint. -/
def APIDemultiplexer_receive (registry : List String) (url : List String) :
    DemuxOutcome :=
  let stream := url.headD ""
  if registry.contains stream then .routed stream
  else .direct (.obj [("status", .n 404), ("detail", .s "Not found")])

/-- Membership of a key in a JSON object. -/
def hasKey (j : JVal) (k : String) : Bool :=
  match j with
  | .obj members => members.any (fun kv => kv.1 == k)
  | _ => false

/-- Lookup of a key in a JSON object. -/
def getKey (j : JVal) (k : String) : Option JVal :=
  match j with
  | .obj members => (members.find? (fun kv => kv.1 == k)).map (fun kv => kv.2)
  | _ => none

/-- Modelled from the spec wording of the outbound direct-response wire
shape: a JSON object with a member "status" holding an int and a member
"text" holding a string or an object. Stated from the spec's words for
comparison against the reply the code actually builds. -/
def spec_direct_response_shape (j : JVal) : Bool :=
  (match getKey j "status" with
   | some (.n _) => true
   | _ => false) &&
  (match getKey j "text" with
   | some (.s _) => true
   | some (.obj _) => true
   | _ => false)

/-- utils.get_group_user_key: the identity group name '.user<pk>'. -/
def get_group_user_key (pk : String) : String := ".user" ++ pk

/-- Rendering of the pk the connection scope exposes into the group-name
format: `getattr(scope.get('user'), 'pk', '')` gives '' when no user object
is attached to the scope (the default of getattr), and the user's pk
otherwise. -/
def scope_user_pk (user_pk : Option String) : String := user_pk.getD ""

/-- GroupUserConsumer.websocket_connect: appends the identity group of the
scope's user to the connection's group list before completing the
handshake. -/
def websocket_connect (user_pk : Option String) (groups : List String) :
    List String :=
  groups ++ [get_group_user_key (scope_user_pk user_pk)]

/-- Python `x or ''` on an optional pk: None and the empty value fall back
to the empty string. -/
def pyOrEmpty (pk : Option String) : String :=
  match pk with
  | none => ""
  | some s => if s == "" then "" else s

/-- Django AnonymousUser().pk is None. -/
def anonymous_user_pk : Option String := none

/-- signals.close_sockets_after_login: the group the forced-disconnect
publish targets, close_user_channels(AnonymousUser().pk or ''). -/
def close_sockets_after_login_group : String :=
  get_group_user_key (pyOrEmpty anonymous_user_pk)

/-- Fixture mirroring the repository's test endpoint: a stream whose
serializer declares the fields ('id', 'name', 'counter'). -/
def cfgStd : Config :=
  { stream := "sc", field_names := ["id", "name", "counter"],
    subscription_field_mapping := [],
    int_fields := ["id", "counter"] }

/-- Fixture collaborators: permissive policy, a codec accepting any payload
as the validated field updates, and a serializer rendering id and fields. -/
def viewOk : View :=
  { perm := fun _ => true
    validate := fun _ p => some p
    serialize := fun e =>
      .obj (("id", jsonPk e.pk) :: e.fields.map (fun kv => (kv.1, .s kv.2))) }

/-- Fixture collaborators whose codec rejects every payload. -/
def viewReject : View :=
  { perm := fun _ => true
    validate := fun _ _ => none
    serialize := fun e => .obj [("id", jsonPk e.pk)] }

/-- Fixture row, like the test suite's APIModel(name='Mike', counter=0). -/
def entMike : Entity :=
  { pk := some 7, fields := [("name", "Mike"), ("counter", "0")] }

def dbStd : List Entity := [entMike]

/-- Fixture instance reaching the change hook from an external mutation
path: the signal_broadcast attribute is absent. -/
def entExternal : Entity :=
  { pk := some 9, fields := [("name", "Ada"), ("counter", "3")] }

/-- Expected result of subscribing to object 7 on the standard stream from
an empty group set. -/
def subMike : SubscribeResult :=
  { groups := {"sc-7"}, join_calls := {"sc-7"},
    response := .send 200 (.obj [("detail", .s "subscription successful")]) }

/-- Concrete result of the fixture create from an empty database, for the
C1 witness. -/
def createBobResult : MutationResult :=
  { db := [{ pk := some 1, fields := [("name", "Bob")],
             signal_broadcast := some false }]
    effects := [.send 201 (.obj [("detail", .s "creation successful")]),
      .group_send "sc-1" CREATE (.obj [("id", .n 1), ("name", .s "Bob")])] }

/-- Behaviour shared by the empty-criteria and the all-entries-dropped
cases: an empty filter dict resolves no objects (the fallible filter call
is never reached), a subscribe joins no groups yet still succeeds with 200,
and an unsubscribe discards no groups yet still responds 204. -/
theorem empty_filter_dict_behavior (cfg : Config) (view : View)
    (db : List Entity) (payload : List (String × String))
    (groups : Finset String) (h : filter_dict cfg payload = []) :
    get_objects cfg db payload = .ok [] ∧
    subscribe cfg view db payload groups
      = .ok { groups := groups, join_calls := ∅,
              response := .send 200
                (.obj [("detail", .s "subscription successful")]) } ∧
    unsubscribe cfg db payload groups
      = .ok { groups := groups, discard_calls := ∅,
              response := .send 204
                (.obj [("detail", .s "subscription cancelled")]) } := by
  have hobj : get_objects cfg db payload = .ok [] := by
    unfold get_objects
    simp [h]
  refine ⟨hobj, ?_, ?_⟩
  · unfold subscribe
    rw [hobj]
    simp [get_group_names]
  · unfold unsubscribe
    rw [hobj]
    simp [get_group_names]

/-- C2: every live connection is a member of exactly one identity group:
websocket_connect appends exactly the one group '.user<pk>' of the scope's
identity to the connection's (initially empty) group list, with the
anonymous bucket '.user' when no pk is available, and the forced-close
publish after login targets exactly the group name that anonymous
connections joined. -/
theorem c2_identity_group_membership (user_pk : Option String)
    (gs : List String) :
    websocket_connect user_pk gs
      = gs ++ [get_group_user_key (scope_user_pk user_pk)] ∧
    websocket_connect user_pk []
      = [get_group_user_key (scope_user_pk user_pk)] ∧
    scope_user_pk none = "" ∧
    close_sockets_after_login_group = ".user" ∧
    websocket_connect none [] = [close_sockets_after_login_group] := by
  refine ⟨rfl, rfl, rfl, by decide, by decide⟩

/-- C3 counterexample: with an empty registry, a message naming stream
'nosuch' is answered by the demultiplexer directly with
{'status': 404, 'detail': 'Not found'}; that reply does not have the
claimed direct-response wire shape { "status": <int>, "text": ... }
because it carries the text under 'detail' and has no 'text' member. -/
theorem c3_counterexample :
    APIDemultiplexer_receive [] ["nosuch", "subscribe"]
      = .direct (.obj [("status", .n 404), ("detail", .s "Not found")]) ∧
    spec_direct_response_shape
      (.obj [("status", .n 404), ("detail", .s "Not found")]) = false := by
  constructor
  · rfl
  · rfl

/-- C3 (amended): for every inbound message naming a stream that is not in
the registry, the demultiplexer itself replies directly with status 404 and
'Not found', without routing to any endpoint; the reply is the JSON object
{'status': 404, 'detail': 'Not found'}, carrying the message under the key
'detail' rather than the documented { "status", "text" } response shape. -/
theorem c3_unregistered_stream_404 (registry : List String)
    (url : List String)
    (h : registry.contains (url.headD "") = false) :
    APIDemultiplexer_receive registry url
      = .direct (.obj [("status", .n 404), ("detail", .s "Not found")]) ∧
    (∀ s, APIDemultiplexer_receive registry url ≠ .routed s) ∧
    getKey (.obj [("status", .n 404), ("detail", .s "Not found")]) "status"
      = some (.n 404) ∧
    hasKey (.obj [("status", .n 404), ("detail", .s "Not found")]) "text"
      = false := by
  have h1 : APIDemultiplexer_receive registry url
      = .direct (.obj [("status", .n 404), ("detail", .s "Not found")]) := by
    have h2 : url.head?.getD "" ∉ registry := by simpa using h
    unfold APIDemultiplexer_receive
    simp [h2]
  refine ⟨h1, ?_, rfl, rfl⟩
  intro s hs
  rw [h1] at hs
  exact DemuxOutcome.noConfusion hs

/-- C3 witness: the amended statement applied to a concrete registry and
message. -/
theorem c3_unregistered_stream_404_witness :
    APIDemultiplexer_receive ["sc"] ["nosuch", "subscribe"]
      = .direct (.obj [("status", .n 404), ("detail", .s "Not found")]) :=
  (c3_unregistered_stream_404 ["sc"] ["nosuch", "subscribe"] (by decide)).1

/-- C4: a subscribe or unsubscribe payload whose restricted, remapped
filter-criteria map is empty resolves to the empty result set — never all
records — and consequently such a subscribe issues no group joins and
leaves the tracked group set unchanged. -/
theorem c4_empty_criteria_no_objects (cfg : Config) (view : View)
    (db : List Entity) (payload : List (String × String))
    (groups : Finset String) (h : filter_dict cfg payload = []) :
    get_objects cfg db payload = .ok [] ∧
    subscribe cfg view db payload groups
      = .ok { groups := groups, join_calls := ∅,
              response := .send 200
                (.obj [("detail", .s "subscription successful")]) } ∧
    unsubscribe cfg db payload groups
      = .ok { groups := groups, discard_calls := ∅,
              response := .send 204
                (.obj [("detail", .s "subscription cancelled")]) } :=
  empty_filter_dict_behavior cfg view db payload groups h

/-- C4 witness: the empty payload against the standard fixture resolves no
objects even though the database is non-empty. -/
theorem c4_empty_criteria_no_objects_witness :
    get_objects cfgStd dbStd [] = .ok [] ∧ dbStd ≠ [] :=
  ⟨(c4_empty_criteria_no_objects cfgStd viewOk dbStd [] ∅ rfl).1, by decide⟩

/-- C8 counterexample: the claim fails as stated. The unsubscribe message
whose payload carries the uncoercible criteria value counter='text' (the
input of the repository's own test_get_objects_invalid_lookup_value) makes
object resolution raise ValidationError; the endpoint answers it with the
400 response 'The lookup value is invalid.', not with the claimed 204
'subscription cancelled', and issues no group_discard. -/
theorem c8_counterexample :
    receive_unsubscribe cfgStd dbStd [("counter", "text")] ∅
      = { groups := ∅, discard_calls := ∅,
          response := .send 400
            (.obj [("detail", .s "The lookup value is invalid.")]) } ∧
    (receive_unsubscribe cfgStd dbStd [("counter", "text")] ∅).response
      ≠ .send 204 (.obj [("detail", .s "subscription cancelled")]) := by
  constructor
  · rfl
  · decide

/-- C8 (amended): for every unsubscribe message whose object resolution
succeeds (every criteria value coerces), the endpoint issues group_discard
for every computed target group whether currently held or not, removes
exactly those from its tracked set, and responds 204 'subscription
cancelled'; unsubscribing without ever having subscribed (the empty tracked
set) is legal and returns the very same 204. When resolution fails (an
uncoercible criteria value) the error is sent as the only response, with no
group_discard issued and the tracked set unchanged. -/
theorem c8_unsubscribe_discards_and_204 (cfg : Config) (db : List Entity)
    (payload : List (String × String)) (groups : Finset String) :
    (∀ objects, get_objects cfg db payload = .ok objects →
      unsubscribe cfg db payload groups
        = .ok { groups := groups \ get_group_names cfg objects
                discard_calls := get_group_names cfg objects
                response := .send 204
                  (.obj [("detail", .s "subscription cancelled")]) } ∧
      unsubscribe cfg db payload ∅
        = .ok { groups := ∅
                discard_calls := get_group_names cfg objects
                response := .send 204
                  (.obj [("detail", .s "subscription cancelled")]) }) ∧
    (∀ e, get_objects cfg db payload = .error e →
      receive_unsubscribe cfg db payload groups
        = { groups := groups, discard_calls := ∅,
            response := handle_exception e }) := by
  constructor
  · intro objects hobj
    constructor
    · unfold unsubscribe
      rw [hobj]
    · unfold unsubscribe
      rw [hobj]
      simp
  · intro e he
    unfold receive_unsubscribe unsubscribe
    rw [he]

/-- C8 witness: the amended statement applied to the standard fixture; an
unsubscribe that resolves object 7 from the empty tracked set discards its
group and responds 204. -/
theorem c8_unsubscribe_discards_and_204_witness :
    unsubscribe cfgStd dbStd [("id", "7")] ∅
      = .ok { groups := ∅
              discard_calls := get_group_names cfgStd [entMike]
              response := .send 204
                (.obj [("detail", .s "subscription cancelled")]) } :=
  ((c8_unsubscribe_discards_and_204 cfgStd dbStd [("id", "7")] ∅).1
    [entMike] (by rfl)).2

/-- C10: payload criteria entries whose names are neither declared field
names nor remapping keys are all silently dropped by the filter-dict
comprehension — no error is raised for an unknown criteria name — and when
every entry is dropped the resolution behaves exactly like the
empty-criteria case: no objects, no groups joined, and the normal success
responses are still sent. -/
theorem c10_unknown_criteria_dropped (cfg : Config) (view : View)
    (db : List Entity) (payload : List (String × String))
    (groups : Finset String)
    (h : ∀ kv ∈ payload, cfg.field_names.contains kv.1 = false ∧
        alistGet cfg.subscription_field_mapping kv.1 = none) :
    filter_dict cfg payload = [] ∧
    get_objects cfg db payload = .ok [] ∧
    subscribe cfg view db payload groups
      = .ok { groups := groups, join_calls := ∅,
              response := .send 200
                (.obj [("detail", .s "subscription successful")]) } ∧
    unsubscribe cfg db payload groups
      = .ok { groups := groups, discard_calls := ∅,
              response := .send 204
                (.obj [("detail", .s "subscription cancelled")]) } := by
  have hfd : filter_dict cfg payload = [] := by
    unfold filter_dict
    rw [List.map_eq_nil_iff, List.filter_eq_nil_iff]
    intro kv hkv
    rcases h kv hkv with ⟨h1, h2⟩
    have h3 : kv.1 ∉ cfg.field_names := by simpa using h1
    simp [h3, h2]
  exact ⟨hfd, empty_filter_dict_behavior cfg view db payload groups hfd⟩

/-- C10 witness: a payload naming only the undeclared criteria 'bogus' is
dropped entirely and the subscribe still succeeds joining nothing. -/
theorem c10_unknown_criteria_dropped_witness :
    filter_dict cfgStd [("bogus", "1")] = [] ∧
    subscribe cfgStd viewOk dbStd [("bogus", "1")] ∅
      = .ok { groups := ∅, join_calls := ∅,
              response := .send 200
                (.obj [("detail", .s "subscription successful")]) } := by
  have h := c10_unknown_criteria_dropped cfgStd viewOk dbStd
    [("bogus", "1")] ∅ (by decide)
  exact ⟨h.1, h.2.2.1⟩

/-- C5: subscribing is idempotent with respect to bus joins: the join calls
issued are exactly the computed target groups not already held, the tracked
set becomes the union of the old set and the computed groups, and a second
subscribe resolving the same objects from the resulting state issues no
join call at all — so subscribing twice to the same object yields exactly
one join call for its group. -/
theorem c5_subscribe_idempotent (cfg : Config) (view : View)
    (db : List Entity) (payload : List (String × String))
    (groups : Finset String) (objects : List Entity) (r : SubscribeResult)
    (hobj : get_objects cfg db payload = .ok objects)
    (h : subscribe cfg view db payload groups = .ok r) :
    r.join_calls = get_group_names cfg objects \ groups ∧
    r.groups = groups ∪ get_group_names cfg objects ∧
    (∀ r2, subscribe cfg view db payload r.groups = .ok r2 →
      r2.join_calls = ∅) := by
  unfold subscribe at h
  rw [hobj] at h
  by_cases hp : objects.all (fun o => view.perm (some o)) = true
  · simp only [hp, if_true] at h
    simp only [Except.ok.injEq] at h
    subst h
    refine ⟨rfl, rfl, ?_⟩
    intro r2 h2
    unfold subscribe at h2
    rw [hobj] at h2
    simp only [hp, if_true, Except.ok.injEq] at h2
    subst h2
    exact Finset.sdiff_eq_empty_iff_subset.mpr Finset.subset_union_right
  · simp [hp] at h

/-- C5 witness: subscribing to object 7 of the standard fixture from the
empty group set joins exactly its group. -/
theorem c5_subscribe_idempotent_witness :
    subMike.join_calls = get_group_names cfgStd [entMike] \ ∅ ∧
    subMike.groups = ∅ ∪ get_group_names cfgStd [entMike] := by
  have h := c5_subscribe_idempotent cfgStd viewOk dbStd [("id", "7")] ∅
    [entMike] subMike (by rfl) (by rfl)
  exact ⟨h.1, h.2.1⟩

/-- C6: for every delete action on a resolved object, the pk is captured
before the deletion and restored onto the detached instance afterwards —
the storage commit detaches the instance (its pk becomes None), yet both
the broadcast group name and the broadcast payload carry the captured pk —
and the broadcast payload is exactly {id: <pk>} with no other member. -/
theorem c6_delete_broadcast_id_only (cfg : Config) (view : View)
    (db : List Entity) (url : List String) (obj : Entity)
    (h : get_object db url DELETE = .ok (some obj)) :
    delete cfg view db url = .ok
      { db := db.filter (fun e => e.pk != obj.pk)
        effects := [.send 204 (.obj [("detail", .s "deletion successful")]),
          .group_send (cfg.stream ++ "-" ++ pkRepr obj.pk) DELETE
            (.obj [("id", jsonPk obj.pk)])] } ∧
    (∀ x : Entity, (storageDelete cfg view db x).2.1.pk = none) := by
  constructor
  · unfold delete
    rw [h]
    simp [storageDelete, post_change_receiver, group_send_post_delete,
      get_group_name]
  · intro x
    rfl

/-- C6 witness: deleting object 7 of the standard fixture broadcasts
exactly {id: 7} to group 'sc-7'. -/
theorem c6_delete_broadcast_id_only_witness :
    delete cfgStd viewOk dbStd ["sc", "delete", "7"] = .ok
      { db := dbStd.filter (fun e => e.pk != entMike.pk)
        effects := [.send 204 (.obj [("detail", .s "deletion successful")]),
          .group_send (cfgStd.stream ++ "-" ++ pkRepr entMike.pk) DELETE
            (.obj [("id", jsonPk entMike.pk)])] } :=
  (c6_delete_broadcast_id_only cfgStd viewOk dbStd ["sc", "delete", "7"]
    entMike (by rfl)).1

/-- C7: a create whose payload fails codec validation is answered with the
validation-error response (DRF maps ValidationError to status 400, the
spec's 422-equivalent), no broadcast is emitted and no record is created;
the permission check likewise runs before the creation operation, a denied
policy yielding the 403 with the database equally untouched. -/
theorem c7_invalid_create_no_side_effects (cfg : Config) (view : View)
    (db : List Entity) (payload : List (String × String)) :
    (view.perm none = true → view.validate none payload = none →
      receive_create cfg view db payload
        = { db := db,
            effects := [.send 400 (.obj [("detail", .s "invalid payload")])] } ∧
      broadcastCount (receive_create cfg view db payload).effects = 0 ∧
      (receive_create cfg view db payload).db = db) ∧
    (view.perm none = false →
      receive_create cfg view db payload
        = { db := db,
            effects := [.send 403 (.obj [("detail",
              .s "You do not have permission to perform this action.")])] }) := by
  constructor
  · intro hp hv
    have he : receive_create cfg view db payload
        = { db := db,
            effects := [.send 400 (.obj [("detail", .s "invalid payload")])] } := by
      unfold receive_create receive_mutation create deserialize
      simp [hp, hv, handle_exception, ApiError.status, ApiError.body]
    refine ⟨he, ?_, ?_⟩
    · rw [he]
      rfl
    · rw [he]
  · intro hp
    unfold receive_create receive_mutation create deserialize
    simp [hp, handle_exception, ApiError.status, ApiError.body]

/-- C7 witness: the rejecting codec of the fixture turns a create into the
400 response without touching the database. -/
theorem c7_invalid_create_no_side_effects_witness :
    receive_create cfgStd viewReject dbStd [("name", "Bob")]
      = { db := dbStd,
          effects := [.send 400 (.obj [("detail", .s "invalid payload")])] } :=
  ((c7_invalid_create_no_side_effects cfgStd viewReject dbStd
    [("name", "Bob")]).1 rfl rfl).1

/-- C9: an update or delete message whose routing path lacks the object-id
segment (no url[2]) fails object resolution with NotFound, mapped to a
single 404 direct response to the requesting connection only; the database
is unchanged and no broadcast is emitted. -/
theorem c9_missing_lookup_segment (cfg : Config) (view : View)
    (db : List Entity) (url : List String)
    (payload : List (String × String)) (h : url.length ≤ 2) :
    receive_update cfg view db url payload
      = { db := db, effects := [.send 404 (.obj [("detail",
            .s "The URL should include a lookup value.")])] } ∧
    receive_delete cfg view db url
      = { db := db, effects := [.send 404 (.obj [("detail",
            .s "The URL should include a lookup value.")])] } ∧
    broadcastCount (receive_update cfg view db url payload).effects = 0 ∧
    broadcastCount (receive_delete cfg view db url).effects = 0 := by
  have hg : url[2]? = none := by
    have h0 : url.get? 2 = none := List.get?_eq_none.mpr h
    simpa using h0
  have hbu : (UPDATE == CREATE) = false := by decide
  have hbd : (DELETE == CREATE) = false := by decide
  have hu : get_object db url UPDATE
      = .error (.notFound "The URL should include a lookup value.") := by
    unfold get_object
    simp [hbu, hg]
  have hd : get_object db url DELETE
      = .error (.notFound "The URL should include a lookup value.") := by
    unfold get_object
    simp [hbd, hg]
  have h1 : receive_update cfg view db url payload
      = { db := db, effects := [.send 404 (.obj [("detail",
            .s "The URL should include a lookup value.")])] } := by
    unfold receive_update receive_mutation update
    rw [hu]
    rfl
  have h2 : receive_delete cfg view db url
      = { db := db, effects := [.send 404 (.obj [("detail",
            .s "The URL should include a lookup value.")])] } := by
    unfold receive_delete receive_mutation delete
    rw [hd]
    rfl
  refine ⟨h1, h2, ?_, ?_⟩
  · rw [h1]
    rfl
  · rw [h2]
    rfl

/-- C9 witness: the two-segment path ['sc', 'update'] yields only the 404
response and leaves the fixture database unchanged. -/
theorem c9_missing_lookup_segment_witness :
    receive_update cfgStd viewOk dbStd ["sc", "update"] []
      = { db := dbStd, effects := [.send 404 (.obj [("detail",
            .s "The URL should include a lookup value.")])] } :=
  (c9_missing_lookup_segment cfgStd viewOk dbStd ["sc", "update"] []
    (by decide)).1

/-- Deserialize hands back an instance carrying the signal_broadcast of its
base: the target object's flag for updates, and the proxy model's False for
an immediate-broadcast create. -/
theorem deserialize_signal_broadcast (view : View) (b : Bool)
    (obj : Option Entity) (payload : List (String × String)) (inst : Entity)
    (h : deserialize view b obj payload = .ok inst) :
    inst.signal_broadcast
      = (obj.getD
          { pk := none, fields := [],
            signal_broadcast := if b then some false else none
          }).signal_broadcast := by
  unfold deserialize at h
  by_cases hp : view.perm obj = true
  · simp only [hp, if_true] at h
    cases hv : view.validate obj payload with
    | none => rw [hv] at h; exact absurd h (by simp)
    | some upd =>
        rw [hv] at h
        simp only [Except.ok.injEq] at h
        subst h
        rfl
  · simp [hp] at h

/-- The change hook is a no-op on an instance carrying the suppression
flag. -/
theorem post_change_receiver_suppressed (cfg : Config) (view : View)
    (inst : Entity) (action : String)
    (h : inst.signal_broadcast = some false) :
    post_change_receiver cfg view inst action = [] := by
  unfold post_change_receiver
  rw [h]
  simp

/-- With the suppression attribute absent the change hook broadcasts
exactly once for each of the three mutation kinds. -/
theorem post_change_receiver_default (cfg : Config) (view : View)
    (inst : Entity) (action : String) (h : inst.signal_broadcast = none)
    (ha : action = CREATE ∨ action = UPDATE ∨ action = DELETE) :
    broadcastCount (post_change_receiver cfg view inst action) = 1 := by
  have hcc : (CREATE == CREATE) = true := by decide
  have huc : (UPDATE == CREATE) = false := by decide
  have huu : (UPDATE == UPDATE) = true := by decide
  have hdc : (DELETE == CREATE) = false := by decide
  have hdu : (DELETE == UPDATE) = false := by decide
  have hdd : (DELETE == DELETE) = true := by decide
  unfold post_change_receiver
  rw [h]
  rcases ha with h1 | h1 | h1 <;> subst h1
  · simp [hcc, broadcastCount, isBroadcast, group_send_post_create]
  · simp [huc, huu, broadcastCount, isBroadcast, group_send_post_update]
  · simp [hdc, hdu, hdd, broadcastCount, isBroadcast, group_send_post_delete]

/-- C1: every committed mutation is broadcast exactly once. Through a
SubscriptionEndpoint action the suppression flag (set on the instance for
update/delete, carried by the proxy model's serializer for create) makes
the change hook fired during the commit a no-op and the endpoint itself
broadcasts exactly once; through any other mutation path the flag is
absent, getattr defaults it to true, and the hook's deferred path
broadcasts exactly once. -/
theorem c1_exactly_once_broadcast (cfg : Config) (view : View)
    (db : List Entity) (url : List String)
    (payload : List (String × String)) :
    (∀ r, create cfg view db payload = .ok r →
      broadcastCount r.effects = 1) ∧
    (∀ r, update cfg view db url payload = .ok r →
      broadcastCount r.effects = 1) ∧
    (∀ r, delete cfg view db url = .ok r →
      broadcastCount r.effects = 1) ∧
    (∀ inst : Entity, inst.signal_broadcast = none →
      ∀ action, action = CREATE ∨ action = UPDATE ∨ action = DELETE →
        broadcastCount (post_change_receiver cfg view inst action) = 1) ∧
    (∀ inst : Entity, inst.signal_broadcast = some false →
      ∀ action, post_change_receiver cfg view inst action = []) := by
  refine ⟨?_, ?_, ?_, ?_, ?_⟩
  · intro r h
    unfold create at h
    split at h
    · exact absurd h (by simp)
    · rename_i inst hd
      have hflag : inst.signal_broadcast = some false := by
        simpa using deserialize_signal_broadcast view true none payload inst hd
      have hsaved : ({ inst with pk := some (freshPk db) } :
          Entity).signal_broadcast = some false := hflag
      simp only [storageCreate, Except.ok.injEq] at h
      subst h
      simp [post_change_receiver_suppressed cfg view _ CREATE hsaved,
        broadcastCount, isBroadcast, group_send_post_create]
  · intro r h
    unfold update at h
    split at h
    · exact absurd h (by simp)
    · exact absurd h (by simp)
    · rename_i obj0 hg
      split at h
      · exact absurd h (by simp)
      · rename_i inst hd
        have hflag : inst.signal_broadcast = some false := by
          simpa using deserialize_signal_broadcast view true
            (some { obj0 with signal_broadcast := some false })
            payload inst hd
        simp only [storageUpdate, Except.ok.injEq] at h
        subst h
        simp [post_change_receiver_suppressed cfg view _ UPDATE hflag,
          broadcastCount, isBroadcast, group_send_post_update]
  · intro r h
    unfold delete at h
    split at h
    · exact absurd h (by simp)
    · exact absurd h (by simp)
    · rename_i obj0 hg
      have hflag : ({ obj0 with signal_broadcast := some false } :
          Entity).signal_broadcast = some false := rfl
      simp only [Except.ok.injEq] at h
      subst h
      simp [storageDelete,
        post_change_receiver_suppressed cfg view _ DELETE hflag,
        broadcastCount, isBroadcast, group_send_post_delete]
  · intro inst hflag action ha
    exact post_change_receiver_default cfg view inst action hflag ha
  · intro inst hflag action
    exact post_change_receiver_suppressed cfg view inst action hflag

/-- C1 witness: the fixture create broadcasts exactly once, and an external
mutation reaching the hook with the attribute absent broadcasts exactly
once. -/
theorem c1_exactly_once_broadcast_witness :
    broadcastCount createBobResult.effects = 1 ∧
    broadcastCount (post_change_receiver cfgStd viewOk entExternal UPDATE)
      = 1 := by
  have h := c1_exactly_once_broadcast cfgStd viewOk [] ["sc", "update", "7"]
    [("name", "Bob")]
  exact ⟨h.1 createBobResult (by rfl),
    h.2.2.2.1 entExternal rfl UPDATE (Or.inr (Or.inl rfl))⟩

end RealtimeApi
